import Mathlib

/-!
Shallow embedding of `w3af/core/controllers/chrome/js/dom_analyzer.js`
(the `_DOMAnalyzer` browser-side singleton) and proofs checking the
natural-language specification against it.

Modelling conventions:
  * JavaScript values that flow through the intercepted entry points are
    modelled by `JsValue` (undefined / boolean / number / string); callback
    function arguments are modelled opaquely as `JsValue` as well, since the
    analyzer only stores them.
  * A DOM element is modelled by `ElementData` (its own DOM properties) plus,
    in `Element`, the chain of its parent elements up to — and excluding —
    the document node, in the order `elem.parentNode` would visit them.
  * The external collaborator `CssSelectorGenerator.getSelector` is specified
    only by its interface (returns a locator string); it is modelled by the
    `selector` field of `ElementData` and, for arbitrary event targets, by an
    explicit `getSelector` function parameter.
  * Accessing a property of `undefined` (e.g. `window.tagName.toLowerCase()`)
    throws a `TypeError` in JavaScript; fallible operations therefore return
    `Except String _`.
-/

namespace DomAnalyzer

/-- A JavaScript value as it flows through the intercepted entry points. -/
inductive JsValue where
  | undefined
  | boolean (b : Bool)
  | num (n : Int)
  | str (s : String)
deriving DecidableEq, Repr

/-- One DOM attribute, as exposed by `element.attributes[i]`:
`nodeName` and `nodeValue`. -/
structure DomAttr where
  nodeName : String
  nodeValue : String
deriving DecidableEq, Repr

/-- The unit of output of the extraction engine: the object literal pushed in
`extractEventsFromAttributes` with keys
`tag_name, node_type, selector, event_type, handler`. -/
structure EventDescriptor where
  tag_name : String
  node_type : Nat
  selector : String
  event_type : String
  handler : String
deriving DecidableEq, Repr

/-- The DOM properties of one element that the analyzer reads:
`tagName` (as stored by the DOM, possibly uppercase — the code lowercases it),
`nodeType`, `attributes`, `offsetWidth`/`offsetHeight`, and the locator string
the collaborator `getSelector` returns for this element. -/
structure ElementData where
  tagName : String
  nodeType : Nat
  selector : String
  attributes : List DomAttr
  offsetWidth : Int
  offsetHeight : Int
deriving DecidableEq, Repr

/-- An element attached to the document: its own data plus the parent chain
`parentNode, parentNode.parentNode, ...` in that order, up to and excluding
the document node (for an attached element the chain ends just below the
document). -/
structure Element where
  data : ElementData
  ancestors : List ElementData
deriving DecidableEq, Repr

/-- `_DOMAnalyzer.universally_valid_events`. -/
def universally_valid_events : List String :=
  ["click", "dblclick", "mousedown", "mousemove", "mouseout", "mouseover",
   "mouseup"]

/-- `_DOMAnalyzer.elements_allowed_to_inherit_events_from_ancestors`. -/
def elements_allowed_to_inherit_events_from_ancestors : List String :=
  ["a", "div", "input", "textarea", "select", "form", "li", "span", "button"]

/-- `_DOMAnalyzer.valid_events_per_element`: an object literal, modelled as an
association list (its keys are distinct, `hasOwnProperty` + indexing is
`List.lookup`). -/
def valid_events_per_element : List (String × List String) :=
  [("body", ["load"]),
   ("button", ["focus", "blur"]),
   ("form", ["submit", "reset"]),
   ("input", ["select", "change", "focus", "blur", "keydown", "keypress",
              "keyup", "input"]),
   ("label", ["focus", "blur"]),
   ("textarea", ["select", "change", "focus", "blur", "keydown", "keypress",
                 "keyup", "input"]),
   ("select", ["change", "focus", "blur"])]

/-- `_DOMAnalyzer.eventIsValidForTagName(tag_name, attr_name)`:
universally valid events pass for every tag; otherwise the tag must have an
entry in `valid_events_per_element` containing the event. -/
def eventIsValidForTagName (tag_name attr_name : String) : Bool :=
  if universally_valid_events.contains attr_name then true
  else
    match valid_events_per_element.lookup tag_name with
    | none => false
    | some events => events.contains attr_name

/-- `_DOMAnalyzer.extractEventsFromAttributes(tag_name, element)`: for each
attribute, `attr_name.substr(2)` strips the first two characters (intended to
strip `"on"` from `"onclick"`), the remainder is validated with
`eventIsValidForTagName`, and on success a descriptor carrying the attribute's
`nodeValue` as handler is pushed. The JS `for` loop pushing conditionally is
rendered as `List.filterMap`. -/
def extractEventsFromAttributes (tag_name : String) (element : ElementData) :
    List EventDescriptor :=
  element.attributes.filterMap (fun attr =>
    let attr_name := attr.nodeName.drop 2
    if eventIsValidForTagName tag_name attr_name then
      some { tag_name := tag_name,
             node_type := element.nodeType,
             selector := element.selector,
             event_type := attr_name,
             handler := attr.nodeValue }
    else none)

/-- `_DOMAnalyzer.getAncestors(elem, selector)`: the loop
`for ( ; elem && elem !== document; elem = elem.parentNode )` pushes `elem`
ITSELF first, then each parent, stopping at (and excluding) the document
node; with a non-null selector only matching elements are kept.
`extractInheritedEvents` always calls it with selector `null` (here `none`). -/
def getAncestors (element : Element) (selector : Option (ElementData → Bool)) :
    List ElementData :=
  let chain := element.data :: element.ancestors
  match selector with
  | none => chain
  | some matches_ => chain.filter matches_

/-- `_DOMAnalyzer.extractInheritedEvents(tag_name, element)`: for tags in the
inheritance allow-list, run attribute extraction on every entry of
`getAncestors(element, null)` (which includes the element itself) and re-scope
each resulting descriptor to `element` by overwriting `tag_name`, `selector`
and `node_type`; the `if (!ancestor_attribute_events.length) continue` is a
no-op under `flatMap`. -/
def extractInheritedEvents (tag_name : String) (element : Element) :
    List EventDescriptor :=
  if ¬ elements_allowed_to_inherit_events_from_ancestors.contains tag_name then
    []
  else
    (getAncestors element none).flatMap (fun ancestor_elem =>
      let ancestor_tag_name := ancestor_elem.tagName.toLower
      let ancestor_attribute_events :=
        extractEventsFromAttributes ancestor_tag_name ancestor_elem
      ancestor_attribute_events.map (fun ancestor_event =>
        { ancestor_event with
            tag_name := tag_name,
            selector := element.data.selector,
            node_type := element.data.nodeType }))

/-- `_DOMAnalyzer.objectArrayUniq(array)`: for each index `i` in turn, every
later entry whose `JSON.stringify` equals that of `a[i]` is spliced out, so
the first occurrence of each value is kept. All descriptors are built with the
same five keys in the same order, so `JSON.stringify` equality coincides with
field-by-field (structural) equality. -/
def objectArrayUniq : List EventDescriptor → List EventDescriptor
  | [] => []
  | x :: xs => x :: objectArrayUniq (xs.filter (fun y => decide (y ≠ x)))
termination_by l => l.length
decreasing_by
  simp only [List.length_cons]
  exact Nat.lt_succ_of_le (xs.length_filter_le _)

/-- `_DOMAnalyzer.elementIsHidden(element)`: true for a null/undefined
reference, or when both `offsetWidth` and `offsetHeight` are non-positive. -/
def elementIsHidden : Option ElementData → Bool
  | none => true
  | some element =>
    if element.offsetWidth ≤ 0 && element.offsetHeight ≤ 0 then true
    else false

/-- The synthetic event built by `dispatchCustomEvent` before dispatch:
`createEvent("Events")` + `initEvent(event_type, true, true)` (bubbling,
cancelable) with every modifier-key flag cleared and `view = window`. -/
structure SyntheticEvent where
  event_type : String
  bubbles : Bool
  cancelable : Bool
  altKey : Bool
  shiftKey : Bool
  ctrlKey : Bool
  metaKey : Bool
  viewIsWindow : Bool
deriving DecidableEq, Repr

/-- `_DOMAnalyzer.dispatchCustomEvent(selector, event_type)`:
`document.querySelector` is modelled by the function argument `querySel`
(`none` = no match). The returned pair is (the boolean the function returns,
the dispatch that took place: target element and event, or `none` when the
function bailed out before `dispatchEvent`). -/
def dispatchCustomEvent (querySel : String → Option ElementData)
    (selector event_type : String) :
    Bool × Option (ElementData × SyntheticEvent) :=
  match querySel selector with
  | none => (false, none)
  | some element =>
    if elementIsHidden (some element) then (false, none)
    else
      let event : SyntheticEvent :=
        { event_type := event_type, bubbles := true, cancelable := true,
          altKey := false, shiftKey := false, ctrlKey := false,
          metaKey := false, viewIsWindow := true }
      (true, some (element, event))

/-- `_DOMAnalyzer.filterByEventName(element_events, event_filter)`: an empty
filter passes everything through; otherwise keep descriptors whose
`event_type` is in the filter. -/
def filterByEventName (element_events : List EventDescriptor)
    (event_filter : List String) : List EventDescriptor :=
  if event_filter.length = 0 then element_events
  else element_events.filter (fun event => event_filter.contains event.event_type)

/-- `_DOMAnalyzer.getElementsWithEventHandlers(event_filter)`:
`document.getElementsByTagName("*")` (all elements in document order) is the
`all_elements` argument. Per element: skip hidden, extract attribute events
and inherited events, concatenate, `objectArrayUniq`, skip when empty,
`filterByEventName`, and append to the running result. -/
def getElementsWithEventHandlers (all_elements : List Element)
    (event_filter : List String) : List EventDescriptor :=
  all_elements.flatMap (fun element =>
    if elementIsHidden (some element.data) then []
    else
      let tag_name := element.data.tagName.toLower
      let attribute_events := extractEventsFromAttributes tag_name element.data
      let inherited_events := extractInheritedEvents tag_name element
      let element_events := objectArrayUniq (attribute_events ++ inherited_events)
      if element_events.length = 0 then []
      else filterByEventName element_events event_filter)

/-- Modelled from the spec: the document-wide query "with no filtering applied
at all" — the same per-element pipeline as `getElementsWithEventHandlers` but
with the filtering step removed. Used to compare the empty-filter behavior of
the code against the spec's notion of an unfiltered query. -/
def getAllEventDescriptors (all_elements : List Element) : List EventDescriptor :=
  all_elements.flatMap (fun element =>
    if elementIsHidden (some element.data) then []
    else
      let tag_name := element.data.tagName.toLower
      let attribute_events := extractEventsFromAttributes tag_name element.data
      let inherited_events := extractInheritedEvents tag_name element
      objectArrayUniq (attribute_events ++ inherited_events))

/- ### Interception layer -/

/-- A record pushed onto `_DOMAnalyzer.set_timeouts` / `set_intervals`:
`{"function": arguments[0], "timeout": arguments[1]}`. -/
structure TimerRecord where
  function_ : JsValue
  timeout : JsValue
deriving DecidableEq, Repr

/-- An event target as seen by `storeEventListenerData`: the global `window`
object, the `document` object, or a DOM node. -/
inductive EventTarget where
  | window
  | document
  | node (data : ElementData)
deriving DecidableEq, Repr

/-- `element.tagName`: only DOM element nodes have a `tagName`; on `window`
and `document` the property is `undefined`. -/
def tagNameOf : EventTarget → Option String
  | .window => none
  | .document => none
  | .node data => some data.tagName

/-- `element.nodeType`: `undefined` on `window`, `9` (DOCUMENT_NODE) on
`document`, the node's own code on an element node. -/
def nodeTypeOf : EventTarget → Option Nat
  | .window => none
  | .document => some 9
  | .node data => some data.nodeType

/-- A record pushed onto `_DOMAnalyzer.event_listeners`. `node_type` is
`Option` because `window.nodeType` is `undefined`; `event_type` is a raw
`JsValue` because the document-level wrapper passes the global `event`
(possibly `undefined`) rather than a string. -/
structure ListenerRecord where
  tag_name : String
  node_type : Option Nat
  selector : String
  event_type : JsValue
  use_capture : JsValue
deriving DecidableEq, Repr

/-- The mutable record lists of the `_DOMAnalyzer` singleton. -/
structure AnalyzerState where
  set_timeouts : List TimerRecord
  set_intervals : List TimerRecord
  event_listeners : List ListenerRecord
deriving DecidableEq, Repr

/-- The singleton's record lists at page load, all empty. -/
def emptyAnalyzerState : AnalyzerState :=
  { set_timeouts := [], set_intervals := [], event_listeners := [] }

/-- `_DOMAnalyzer.storeEventListenerData(element, type, listener, useCapture)`:
computes `getSelector(element)` and then reads
`element.tagName.toLowerCase()` — which throws a `TypeError` when `tagName`
is `undefined` (i.e. when `element` is `window` or `document`), in which case
nothing is pushed and the exception propagates. On success the record is
pushed onto `event_listeners`. -/
def storeEventListenerData (getSelector : EventTarget → String)
    (st : AnalyzerState) (element : EventTarget)
    (type_ listener useCapture : JsValue) : Except String AnalyzerState :=
  let selector := getSelector element
  let _ := listener
  match tagNameOf element with
  | none =>
    .error "TypeError: Cannot read property toLowerCase of undefined"
  | some tn =>
    .ok { st with
            event_listeners := st.event_listeners ++
              [{ tag_name := tn.toLower,
                 node_type := nodeTypeOf element,
                 selector := selector,
                 event_type := type_,
                 use_capture := useCapture }] }

/-- The wrapper installed over `window.setTimeout`: pushes
`{function: arguments[0], timeout: arguments[1]}` onto `set_timeouts`, then
calls `original_setTimeout.apply(this, arguments)`. The wrapper body has no
`return` statement, so its own return value is `undefined`. Result:
(new state, the original implementation's result, the wrapper's return
value). -/
def wrapped_setTimeout (original : List JsValue → JsValue)
    (st : AnalyzerState) (args : List JsValue) :
    AnalyzerState × JsValue × JsValue :=
  let function_ := args.getD 0 .undefined
  let timeout := args.getD 1 .undefined
  let st' := { st with
                 set_timeouts := st.set_timeouts ++
                   [{ function_ := function_, timeout := timeout }] }
  (st', original args, JsValue.undefined)

/-- The wrapper installed over `window.setInterval`; same shape as the
`setTimeout` wrapper, recording into `set_intervals`. -/
def wrapped_setInterval (original : List JsValue → JsValue)
    (st : AnalyzerState) (args : List JsValue) :
    AnalyzerState × JsValue × JsValue :=
  let function_ := args.getD 0 .undefined
  let timeout := args.getD 1 .undefined
  let st' := { st with
                 set_intervals := st.set_intervals ++
                   [{ function_ := function_, timeout := timeout }] }
  (st', original args, JsValue.undefined)

/-- The wrapper installed over `window.addEventListener`: first
`storeEventListenerData(window, type, listener, useCapture)` (which may
throw, aborting the call before the original runs), then
`original_window_addEventListener.apply(window, arguments)`. On success the
result is (new state, original's result, wrapper's return value
`undefined`). -/
def wrapped_window_addEventListener (getSelector : EventTarget → String)
    (original : List JsValue → JsValue) (st : AnalyzerState)
    (type_ listener useCapture : JsValue) :
    Except String (AnalyzerState × JsValue × JsValue) :=
  match storeEventListenerData getSelector st .window type_ listener useCapture with
  | .error e => .error e
  | .ok st' => .ok (st', original [type_, listener, useCapture], JsValue.undefined)

/-- The argument tuple the document-level wrapper passes to
`storeEventListenerData`, read directly off the source line
`_DOMAnalyzer.storeEventListenerData(document, event, listener, useCapture)`:
the second argument is the GLOBAL `event` (`window.event`, `undefined`
outside event dispatch), not the wrapper's own `type` parameter. -/
def document_wrapper_store_args (globalEvent type_ listener useCapture : JsValue) :
    EventTarget × JsValue × JsValue × JsValue :=
  let _ := type_
  (.document, globalEvent, listener, useCapture)

/-- The wrapper installed over `document.addEventListener`: records via
`document_wrapper_store_args` (passing the global `event` as the type), then
`original_document_addEventListener.apply(document, arguments)`. -/
def wrapped_document_addEventListener (getSelector : EventTarget → String)
    (original : List JsValue → JsValue) (globalEvent : JsValue)
    (st : AnalyzerState) (type_ listener useCapture : JsValue) :
    Except String (AnalyzerState × JsValue × JsValue) :=
  let (target, t, l, u) := document_wrapper_store_args globalEvent type_ listener useCapture
  match storeEventListenerData getSelector st target t l u with
  | .error e => .error e
  | .ok st' => .ok (st', original [type_, listener, useCapture], JsValue.undefined)

/-- The wrapper installed over `Node.prototype.addEventListener`: `this` is
the node the page registered on; records via
`storeEventListenerData(this, type, listener, useCapture)`, then forwards to
`original_node_addEventListener.apply(this, arguments)`. -/
def wrapped_node_addEventListener (getSelector : EventTarget → String)
    (original : List JsValue → JsValue) (st : AnalyzerState)
    (thisNode : ElementData) (type_ listener useCapture : JsValue) :
    Except String (AnalyzerState × JsValue × JsValue) :=
  match storeEventListenerData getSelector st (.node thisNode) type_ listener useCapture with
  | .error e => .error e
  | .ok st' => .ok (st', original [type_, listener, useCapture], JsValue.undefined)

/- ### Initialization -/

/-- The native entry-point slots the analyzer overrides; each counter is the
number of forwarding wrappers currently stacked on the slot (0 = the
untouched native function). -/
structure BrowserEnv where
  setTimeout_wraps : Nat
  setInterval_wraps : Nat
  window_addEventListener_wraps : Nat
  document_addEventListener_wraps : Nat
  node_addEventListener_wraps : Nat
deriving DecidableEq, Repr

/-- `_DOMAnalyzer.override_setTimeout()`: saves the current
`window.setTimeout` and replaces it with one wrapper. -/
def override_setTimeout (env : BrowserEnv) : BrowserEnv :=
  { env with setTimeout_wraps := env.setTimeout_wraps + 1 }

/-- `_DOMAnalyzer.override_setInterval()`. -/
def override_setInterval (env : BrowserEnv) : BrowserEnv :=
  { env with setInterval_wraps := env.setInterval_wraps + 1 }

/-- `_DOMAnalyzer.override_addEventListener()`: wraps the three registration
slots — `window.addEventListener`, `document.addEventListener` and
`Node.prototype.addEventListener` — once each. -/
def override_addEventListener (env : BrowserEnv) : BrowserEnv :=
  { env with
      window_addEventListener_wraps := env.window_addEventListener_wraps + 1,
      document_addEventListener_wraps := env.document_addEventListener_wraps + 1,
      node_addEventListener_wraps := env.node_addEventListener_wraps + 1 }

/-- The `initialized` guard flag together with the entry-point slots. -/
structure InitState where
  initDone : Bool
  env : BrowserEnv
deriving DecidableEq, Repr

/-- `_DOMAnalyzer.initialize()`: `if (initialized) return;` then set the flag
and run the three override installers (addEventListener, setTimeout,
setInterval, in source order). `initDone` models the `initialized` field. -/
def initAnalyzer (s : InitState) : InitState :=
  if s.initDone then s
  else
    { initDone := true,
      env := override_setInterval (override_setTimeout
               (override_addEventListener s.env)) }

/-- A page-load environment: native slots untouched, guard flag down. -/
def freshInitState : InitState :=
  { initDone := false,
    env := { setTimeout_wraps := 0, setInterval_wraps := 0,
             window_addEventListener_wraps := 0,
             document_addEventListener_wraps := 0,
             node_addEventListener_wraps := 0 } }

/- ### Concrete instances used by counterexamples and witnesses -/

/-- A visible div carrying an inline click handler, attached directly below
the document node (its parent chain above it, excluding the document, is
empty). -/
def elSelfHandler : Element :=
  { data := { tagName := "div", nodeType := 1, selector := "#c4",
              attributes := [{ nodeName := "onclick", nodeValue := "x()" }],
              offsetWidth := 10, offsetHeight := 10 },
    ancestors := [] }

/-- An anchor element with an inline click handler, used as an ancestor. -/
def ancestorLink : ElementData :=
  { tagName := "a", nodeType := 1, selector := "#link",
    attributes := [{ nodeName := "onclick", nodeValue := "go()" }],
    offsetWidth := 5, offsetHeight := 5 }

/-- A button with no attributes whose parent is `ancestorLink`. -/
def buttonUnderLink : Element :=
  { data := { tagName := "button", nodeType := 1, selector := "#btn",
              attributes := [], offsetWidth := 5, offsetHeight := 5 },
    ancestors := [ancestorLink] }

/-- A div whose only attribute is named `xxclick`: not an event-handler
attribute (it does not carry the `on` prefix), yet its name minus the first
two characters is the valid event name `click`. -/
def elOddAttribute : ElementData :=
  { tagName := "div", nodeType := 1, selector := "#c5",
    attributes := [{ nodeName := "xxclick", nodeValue := "v()" }],
    offsetWidth := 1, offsetHeight := 1 }

/-- A div whose only attribute is `href`: its name minus two characters
(`ef`) validates against no tag. -/
def elNoHandler : ElementData :=
  { tagName := "div", nodeType := 1, selector := "#c5b",
    attributes := [{ nodeName := "href", nodeValue := "/x" }],
    offsetWidth := 1, offsetHeight := 1 }

/-- Two descriptors differing only in their handler source. -/
def descrA : EventDescriptor :=
  { tag_name := "div", node_type := 1, selector := "#d",
    event_type := "click", handler := "x()" }

/-- See `descrA`. -/
def descrB : EventDescriptor :=
  { tag_name := "div", node_type := 1, selector := "#d",
    event_type := "click", handler := "y()" }

/-- A visible element resolvable through `querySelResolver`. -/
def elVisible : ElementData :=
  { tagName := "span", nodeType := 1, selector := "#visible",
    attributes := [], offsetWidth := 4, offsetHeight := 4 }

/-- A zero-sized (hidden) element resolvable through `querySelResolver`. -/
def elZeroSize : ElementData :=
  { tagName := "span", nodeType := 1, selector := "#hidden",
    attributes := [], offsetWidth := 0, offsetHeight := 0 }

/-- A concrete `document.querySelector` behavior: resolves `#visible` and
`#hidden`, fails on everything else. -/
def querySelResolver : String → Option ElementData := fun s =>
  if s = "#visible" then some elVisible
  else if s = "#hidden" then some elZeroSize
  else none

/-- A two-element document: a visible div with a click handler and a
mouseover handler, followed by a zero-sized (hidden) div with a click
handler. -/
def docSample : List Element :=
  [{ data := { tagName := "div", nodeType := 1, selector := "#one",
               attributes := [{ nodeName := "onclick", nodeValue := "a()" },
                              { nodeName := "onmouseover", nodeValue := "b()" }],
               offsetWidth := 8, offsetHeight := 8 },
     ancestors := [] },
   { data := { tagName := "div", nodeType := 1, selector := "#two",
               attributes := [{ nodeName := "onclick", nodeValue := "c()" }],
               offsetWidth := 0, offsetHeight := 0 },
     ancestors := [] }]

/- ### Helper lemmas -/

/-- Membership is preserved by `objectArrayUniq`. -/
theorem mem_objectArrayUniq (l : List EventDescriptor) (d : EventDescriptor) :
    d ∈ objectArrayUniq l ↔ d ∈ l := by
  induction l using objectArrayUniq.induct with
  | case1 => simp [objectArrayUniq]
  | case2 x xs ih =>
    rw [objectArrayUniq]
    simp only [List.mem_cons, ih, List.mem_filter, decide_eq_true_eq]
    constructor
    · rintro (rfl | ⟨hmem, _⟩)
      · exact Or.inl rfl
      · exact Or.inr hmem
    · rintro (rfl | hmem)
      · exact Or.inl rfl
      · by_cases hxd : d = x
        · exact Or.inl hxd
        · exact Or.inr ⟨hmem, hxd⟩

/-- The output of `objectArrayUniq` has no duplicates. -/
theorem nodup_objectArrayUniq (l : List EventDescriptor) :
    (objectArrayUniq l).Nodup := by
  induction l using objectArrayUniq.induct with
  | case1 => simp [objectArrayUniq]
  | case2 x xs ih =>
    rw [objectArrayUniq]
    refine List.nodup_cons.mpr ⟨fun hmem => ?_, ih⟩
    rw [mem_objectArrayUniq] at hmem
    have hne := (List.mem_filter.mp hmem).2
    simp at hne

/-- An empty filter passes every descriptor through. -/
theorem filterByEventName_nil (element_events : List EventDescriptor) :
    filterByEventName element_events [] = element_events := by
  simp [filterByEventName]

/-- A non-empty filter keeps exactly the descriptors whose event type is a
member. -/
theorem filterByEventName_ne_nil (element_events : List EventDescriptor)
    (event_filter : List String) (h : event_filter ≠ []) :
    filterByEventName element_events event_filter =
      element_events.filter (fun event => event_filter.contains event.event_type) := by
  rw [filterByEventName, if_neg]
  simpa [List.length_eq_zero] using h

/-- Querying with the empty filter coincides with the unfiltered pipeline. -/
theorem query_empty_filter (all_elements : List Element) :
    getElementsWithEventHandlers all_elements [] =
      getAllEventDescriptors all_elements := by
  induction all_elements with
  | nil => rfl
  | cons element rest ih =>
    rw [getElementsWithEventHandlers, getAllEventDescriptors,
        List.flatMap_cons, List.flatMap_cons,
        ← getElementsWithEventHandlers, ← getAllEventDescriptors, ih]
    by_cases hhid : elementIsHidden (some element.data) = true
    · simp [hhid]
    · simp only [hhid, Bool.false_eq_true, if_false, if_neg,
                 filterByEventName_nil]
      split
      · next hlen => simp_all [List.length_eq_zero]
      · rfl

/-- Querying with a non-empty filter coincides with filtering the unfiltered
pipeline output. -/
theorem query_ne_nil_filter (all_elements : List Element)
    (event_filter : List String) (h : event_filter ≠ []) :
    getElementsWithEventHandlers all_elements event_filter =
      (getAllEventDescriptors all_elements).filter
        (fun event => event_filter.contains event.event_type) := by
  induction all_elements with
  | nil => rfl
  | cons element rest ih =>
    rw [getElementsWithEventHandlers, getAllEventDescriptors,
        List.flatMap_cons, List.flatMap_cons,
        ← getElementsWithEventHandlers, ← getAllEventDescriptors,
        List.filter_append, ih]
    by_cases hhid : elementIsHidden (some element.data) = true
    · simp [hhid]
    · simp only [hhid, Bool.false_eq_true, if_false, if_neg,
                 filterByEventName_ne_nil _ _ h]
      split
      · next hlen =>
        have : objectArrayUniq
            (extractEventsFromAttributes element.data.tagName.toLower element.data ++
             extractInheritedEvents element.data.tagName.toLower element) = [] := by
          simpa [List.length_eq_zero] using hlen
        simp [this]
      · rfl

/-- Hidden elements contribute nothing to the query. -/
theorem query_drop_hidden (all_elements : List Element)
    (event_filter : List String) :
    getElementsWithEventHandlers
        (all_elements.filter (fun element => !(elementIsHidden (some element.data))))
        event_filter =
      getElementsWithEventHandlers all_elements event_filter := by
  induction all_elements with
  | nil => rfl
  | cons element rest ih =>
    simp only [getElementsWithEventHandlers] at ih ⊢
    by_cases hhid : elementIsHidden (some element.data) = true
    · rw [List.filter_cons_of_neg (by simp [hhid]), ih, List.flatMap_cons]
      simp [hhid]
    · rw [List.filter_cons_of_pos (by simp [hhid]), List.flatMap_cons,
          List.flatMap_cons, ih]

/- ### Claim theorems -/

/-- C1: the spec assumes a listener registered through the intercepted
document-level `addEventListener` is recorded with the registration call's
own `type` argument. The code instead passes the global `event` (here
`undefined`, its value outside event dispatch) to the recorder, and the
recording then dereferences `document.tagName` (`undefined`), so the call
throws and no record carrying the `type` argument is ever appended:
registering `"click"` on the document feeds `undefined` — not `"click"` —
into the record and ends in a `TypeError`. -/
theorem document_listener_record_uses_global_event :
    (document_wrapper_store_args JsValue.undefined (JsValue.str "click")
        (JsValue.str "handler") (JsValue.boolean false)).2.1 = JsValue.undefined ∧
    JsValue.undefined ≠ JsValue.str "click" ∧
    wrapped_document_addEventListener (fun _ => "html") (fun _ => JsValue.undefined)
        JsValue.undefined emptyAnalyzerState (JsValue.str "click")
        (JsValue.str "handler") (JsValue.boolean false) =
      .error "TypeError: Cannot read property toLowerCase of undefined" := by
  refine ⟨rfl, by decide, rfl⟩

/-- C2: the claim says every wrapper returns the original implementation's
result unmodified. The `setTimeout` wrapper body has no `return` statement:
at `setTimeout(callback, 100)` with a native implementation returning timer
id `42`, the wrapper appends its record and invokes the original (which
yields `42`) but hands `undefined` back to the caller. -/
theorem setTimeout_wrapper_drops_return_value :
    wrapped_setTimeout (fun _ => JsValue.num 42) emptyAnalyzerState
        [JsValue.str "callback", JsValue.num 100] =
      ({ set_timeouts := [{ function_ := JsValue.str "callback",
                            timeout := JsValue.num 100 }],
         set_intervals := [], event_listeners := [] },
       JsValue.num 42, JsValue.undefined) ∧
    JsValue.undefined ≠ JsValue.num 42 := by
  refine ⟨rfl, by decide⟩

/-- C3: the claim says every intercepted listener registration appends
exactly one record without raising. Registering `"scroll"` on the global
window makes `storeEventListenerData` dereference `window.tagName`
(`undefined`), so the wrapper throws a `TypeError` before any record is
pushed and before the original `addEventListener` runs. -/
theorem window_listener_registration_throws :
    tagNameOf EventTarget.window = none ∧
    wrapped_window_addEventListener (fun _ => "selector") (fun _ => JsValue.undefined)
        emptyAnalyzerState (JsValue.str "scroll") (JsValue.str "handler")
        (JsValue.boolean false) =
      .error "TypeError: Cannot read property toLowerCase of undefined" := by
  refine ⟨rfl, rfl⟩

/-- C6: `eventIsValidForTagName` returns true exactly when the event name is
universally valid, or the tag name has a registered per-tag allow-list
containing the event name. -/
theorem eventIsValidForTagName_spec (tag_name event_name : String) :
    eventIsValidForTagName tag_name event_name = true ↔
      universally_valid_events.contains event_name = true ∨
      ∃ events, valid_events_per_element.lookup tag_name = some events ∧
        events.contains event_name = true := by
  rw [eventIsValidForTagName]
  by_cases huniv : universally_valid_events.contains event_name = true
  · have hmem : event_name ∈ universally_valid_events := by simpa using huniv
    simp [hmem]
  · simp only [huniv, if_false, Bool.false_eq_true, false_or,
               if_neg huniv]
    rcases hl : valid_events_per_element.lookup tag_name with _ | events
    · simp
    · simp

/-- C7: `objectArrayUniq` deduplicates by structural equality over all
fields: the output has no two structurally equal entries (equal entries
collapse to one), membership is otherwise preserved, and two distinct input
entries — for example two descriptors differing only in handler source —
both remain in the output. -/
theorem objectArrayUniq_dedup_spec (l : List EventDescriptor) :
    (objectArrayUniq l).Nodup ∧
    (∀ d : EventDescriptor, d ∈ objectArrayUniq l ↔ d ∈ l) ∧
    (∀ d1 d2 : EventDescriptor, d1 ∈ l → d2 ∈ l → d1 ≠ d2 →
      d1 ∈ objectArrayUniq l ∧ d2 ∈ objectArrayUniq l) :=
  ⟨nodup_objectArrayUniq l,
   fun d => mem_objectArrayUniq l d,
   fun d1 d2 h1 h2 _ =>
     ⟨(mem_objectArrayUniq l d1).mpr h1, (mem_objectArrayUniq l d2).mpr h2⟩⟩

/-- Witness for C7 at a concrete list: `descrA` and `descrB` differ only in
handler source and both survive, while the duplicate `descrA` collapses. -/
theorem objectArrayUniq_dedup_spec_witness :
    descrA ∈ objectArrayUniq [descrA, descrA, descrB] ∧
    descrB ∈ objectArrayUniq [descrA, descrA, descrB] :=
  (objectArrayUniq_dedup_spec [descrA, descrA, descrB]).2.2 descrA descrB
    (by decide) (by decide) (by decide)

/-- C10: `initialize` (modelled by `initAnalyzer`) wraps each native entry
point exactly once on a first call, is a silent no-op on an
already-initialized state, and is idempotent. -/
theorem initAnalyzer_idempotent_spec (s : InitState) :
    (s.initDone = false →
      initAnalyzer s =
        { initDone := true,
          env := { setTimeout_wraps := s.env.setTimeout_wraps + 1,
                   setInterval_wraps := s.env.setInterval_wraps + 1,
                   window_addEventListener_wraps :=
                     s.env.window_addEventListener_wraps + 1,
                   document_addEventListener_wraps :=
                     s.env.document_addEventListener_wraps + 1,
                   node_addEventListener_wraps :=
                     s.env.node_addEventListener_wraps + 1 } }) ∧
    (s.initDone = true → initAnalyzer s = s) ∧
    initAnalyzer (initAnalyzer s) = initAnalyzer s := by
  refine ⟨fun h => ?_, fun h => ?_, ?_⟩
  · simp [initAnalyzer, h, override_addEventListener, override_setTimeout,
          override_setInterval]
  · simp [initAnalyzer, h]
  · by_cases h : s.initDone <;>
      simp [initAnalyzer, h, override_addEventListener, override_setTimeout,
            override_setInterval]

/-- Witness for C10 at the page-load state: one wrapper lands on every slot
and a second call changes nothing. -/
theorem initAnalyzer_idempotent_spec_witness :
    initAnalyzer freshInitState =
      { initDone := true,
        env := { setTimeout_wraps := 1, setInterval_wraps := 1,
                 window_addEventListener_wraps := 1,
                 document_addEventListener_wraps := 1,
                 node_addEventListener_wraps := 1 } } ∧
    initAnalyzer (initAnalyzer freshInitState) = initAnalyzer freshInitState :=
  ⟨(initAnalyzer_idempotent_spec freshInitState).1 rfl,
   (initAnalyzer_idempotent_spec freshInitState).2.2⟩

/-- C4 counterexample: `elSelfHandler` sits directly below the document, so
there is no ancestor strictly between it and the document root and the claim
demands the empty list; yet `extractInheritedEvents` also runs attribute
extraction on the element ITSELF (the `getAncestors` loop pushes the starting
element before walking `parentNode`), producing the element's own click
descriptor. -/
theorem extractInheritedEvents_includes_self_counterexample :
    elSelfHandler.ancestors = [] ∧
    extractInheritedEvents "div" elSelfHandler =
      [{ tag_name := "div", node_type := 1, selector := "#c4",
         event_type := "click", handler := "x()" }] := by
  refine ⟨rfl, by decide⟩

/-- C4 (amended): for a tag name outside the inheritance allow-list the
result is empty; for a tag name in the allow-list, the descriptors are
exactly those obtained by running attribute extraction on the element itself
and on every ancestor below the document node, each re-scoped to the original
element (its tag name, node-type and locator) while keeping the ancestor's
event type and handler source. -/
theorem extractInheritedEvents_spec (tag_name : String) (element : Element) :
    (elements_allowed_to_inherit_events_from_ancestors.contains tag_name = false →
      extractInheritedEvents tag_name element = []) ∧
    (elements_allowed_to_inherit_events_from_ancestors.contains tag_name = true →
      ∀ d : EventDescriptor,
        d ∈ extractInheritedEvents tag_name element ↔
          ∃ ancestor_elem ∈ element.data :: element.ancestors,
            ∃ e ∈ extractEventsFromAttributes ancestor_elem.tagName.toLower
                    ancestor_elem,
              d = { tag_name := tag_name,
                    node_type := element.data.nodeType,
                    selector := element.data.selector,
                    event_type := e.event_type,
                    handler := e.handler }) := by
  constructor
  · intro h
    rw [extractInheritedEvents, if_pos (by simpa using h)]
  · intro h d
    rw [extractInheritedEvents, if_neg (by simpa using h)]
    simp only [getAncestors, List.mem_flatMap, List.mem_map]
    constructor
    · rintro ⟨anc, hanc, e, he, rfl⟩
      exact ⟨anc, hanc, e, he, rfl⟩
    · rintro ⟨anc, hanc, e, he, rfl⟩
      exact ⟨anc, hanc, e, he, rfl⟩

/-- Witness for C4 at the spec's own example: a button with no attributes
under a link with an inline click handler inherits one descriptor scoped to
the button with the ancestor's event type and handler. -/
theorem extractInheritedEvents_spec_witness :
    ({ tag_name := "button", node_type := 1, selector := "#btn",
       event_type := "click", handler := "go()" } : EventDescriptor) ∈
      extractInheritedEvents "button" buttonUnderLink :=
  ((extractInheritedEvents_spec "button" buttonUnderLink).2 (by decide) _).mpr
    (by decide)

/-- C5 counterexample: the attribute `xxclick` is not an event-handler
attribute (it does not carry the `on` prefix), yet stripping its first two
characters leaves the universally valid event name `click`, so attribute
extraction emits a descriptor for it instead of the zero descriptors the
claim promises for non-handler attributes. -/
theorem nonHandlerAttribute_yields_descriptor_counterexample :
    extractEventsFromAttributes "div" elOddAttribute =
      [{ tag_name := "div", node_type := 1, selector := "#c5",
         event_type := "click", handler := "v()" }] := by
  decide

/-- C5 (amended): attribute extraction emits a descriptor — whose event type
is the attribute name minus its first two characters and whose handler source
is the attribute's literal value — exactly for the attributes whose stripped
name validates against the validity matrix with the element's tag name; when
every attribute of the element fails that validation the result is empty. An
attribute need not carry the `on` prefix for its stripped name to validate. -/
theorem extractEventsFromAttributes_spec (tag_name : String)
    (element : ElementData) :
    (∀ d : EventDescriptor,
      d ∈ extractEventsFromAttributes tag_name element ↔
        ∃ attr ∈ element.attributes,
          eventIsValidForTagName tag_name (attr.nodeName.drop 2) = true ∧
          d = { tag_name := tag_name,
                node_type := element.nodeType,
                selector := element.selector,
                event_type := attr.nodeName.drop 2,
                handler := attr.nodeValue }) ∧
    ((∀ attr ∈ element.attributes,
        eventIsValidForTagName tag_name (attr.nodeName.drop 2) = false) →
      extractEventsFromAttributes tag_name element = []) := by
  constructor
  · intro d
    rw [extractEventsFromAttributes]
    simp only [List.mem_filterMap]
    constructor
    · rintro ⟨attr, hattr, hsome⟩
      by_cases hval : eventIsValidForTagName tag_name (attr.nodeName.drop 2) = true
      · rw [if_pos hval] at hsome
        exact ⟨attr, hattr, hval, (Option.some.injEq _ _ ▸ hsome).symm⟩
      · rw [if_neg hval] at hsome
        exact absurd hsome (by simp)
    · rintro ⟨attr, hattr, hval, rfl⟩
      exact ⟨attr, hattr, by rw [if_pos hval]⟩
  · intro h
    rw [extractEventsFromAttributes, List.filterMap_eq_nil_iff]
    intro attr hattr
    rw [if_neg (by simp [h attr hattr])]

/-- Witness for C5: an element whose only attribute is `href` yields zero
descriptors, and the spec's click-handler example yields its descriptor. -/
theorem extractEventsFromAttributes_spec_witness :
    extractEventsFromAttributes "div" elNoHandler = [] ∧
    ({ tag_name := "div", node_type := 1, selector := "#c4",
       event_type := "click", handler := "x()" } : EventDescriptor) ∈
      extractEventsFromAttributes "div" elSelfHandler.data :=
  ⟨(extractEventsFromAttributes_spec "div" elNoHandler).2 (by decide),
   ((extractEventsFromAttributes_spec "div" elSelfHandler.data).1 _).mpr
     (by decide)⟩

/-- C8: `dispatchCustomEvent` returns false and dispatches nothing when the
locator resolves to no element or to a hidden one; otherwise it dispatches on
the resolved element a bubbling, cancelable event of the requested type with
every modifier-key flag cleared and its view set to the global window, and
returns true. -/
theorem dispatchCustomEvent_spec (querySel : String → Option ElementData)
    (selector event_type : String) :
    ((querySel selector = none ∨
        ∃ element, querySel selector = some element ∧
          elementIsHidden (some element) = true) →
      dispatchCustomEvent querySel selector event_type = (false, none)) ∧
    (∀ element, querySel selector = some element →
      elementIsHidden (some element) = false →
      dispatchCustomEvent querySel selector event_type =
        (true, some (element,
          { event_type := event_type, bubbles := true, cancelable := true,
            altKey := false, shiftKey := false, ctrlKey := false,
            metaKey := false, viewIsWindow := true }))) := by
  constructor
  · rintro (h | ⟨element, h, hhid⟩)
    · simp [dispatchCustomEvent, h]
    · simp [dispatchCustomEvent, h, hhid]
  · intro element h hvis
    simp [dispatchCustomEvent, h, hvis]

/-- Witness for C8: a dangling locator and a zero-sized target give false
with no dispatch; the visible target gives true with the synthesized
event. -/
theorem dispatchCustomEvent_spec_witness :
    dispatchCustomEvent querySelResolver "#nope" "click" = (false, none) ∧
    dispatchCustomEvent querySelResolver "#hidden" "click" = (false, none) ∧
    dispatchCustomEvent querySelResolver "#visible" "click" =
      (true, some (elVisible,
        { event_type := "click", bubbles := true, cancelable := true,
          altKey := false, shiftKey := false, ctrlKey := false,
          metaKey := false, viewIsWindow := true })) :=
  ⟨(dispatchCustomEvent_spec querySelResolver "#nope" "click").1
     (Or.inl (by decide)),
   (dispatchCustomEvent_spec querySelResolver "#hidden" "click").1
     (Or.inr ⟨elZeroSize, by decide, by decide⟩),
   (dispatchCustomEvent_spec querySelResolver "#visible" "click").2
     elVisible (by decide) (by decide)⟩

/-- C9: the document-wide query with an empty filter equals the pipeline
with no filtering at all; with a non-empty filter it returns exactly the
unfiltered descriptors whose event type is in the filter (order preserved,
since both sides are the same document-ordered concatenation); and hidden
elements contribute nothing. -/
theorem getElementsWithEventHandlers_filter_spec (all_elements : List Element)
    (event_filter : List String) :
    (getElementsWithEventHandlers all_elements [] =
      getAllEventDescriptors all_elements) ∧
    (event_filter ≠ [] →
      getElementsWithEventHandlers all_elements event_filter =
        (getAllEventDescriptors all_elements).filter
          (fun event => event_filter.contains event.event_type)) ∧
    (getElementsWithEventHandlers
        (all_elements.filter (fun element => !(elementIsHidden (some element.data))))
        event_filter =
      getElementsWithEventHandlers all_elements event_filter) :=
  ⟨query_empty_filter all_elements,
   fun h => query_ne_nil_filter all_elements event_filter h,
   query_drop_hidden all_elements event_filter⟩

/-- Witness for C9 on a concrete two-element document (second element
hidden) and the filter that keeps only click descriptors. -/
theorem getElementsWithEventHandlers_filter_spec_witness :
    getElementsWithEventHandlers docSample [] = getAllEventDescriptors docSample ∧
    getElementsWithEventHandlers docSample ["click"] =
      (getAllEventDescriptors docSample).filter
        (fun event => ["click"].contains event.event_type) :=
  ⟨(getElementsWithEventHandlers_filter_spec docSample ["click"]).1,
   (getElementsWithEventHandlers_filter_spec docSample ["click"]).2.1
     (by decide)⟩

end DomAnalyzer
